import Mathlib

/-!
Verification of the column-mapping core of the shared-catalog-import package.

The definitions below are a shallow embedding of `ColumnMappingStep.tsx`:
`autoDetectMapping` (the column classifier), `initializeColumnMapping`
(the mapping initializer), `validateMapping` (the mapping validator) and
`analyzePrePlatedSamples` (the sample analyzer), together with the data
types from `types.ts` that they operate on.  JavaScript strings are
modelled as Lean `String`, `toLowerCase`/`trim`/`includes` as explicit
ASCII list-of-char operations, the early-return rule chains as
`Option`-valued rule tiers, and the optional `ctx` / `screeningMode` /
`defaultPlateId` parameters as `Option` arguments.
-/

/-- Import kind, from `types.ts`. -/
inductive CatalogImportKind
  | BUILDING_BLOCK
  | SCREENING_COMPOUND
deriving DecidableEq

/-- Screening sub-mode, from `types.ts`. -/
inductive ScreeningMode
  | COMPOUND_LIST
  | PLATED_KIT
deriving DecidableEq

/-- Semantic field identifiers, from `types.ts` (`ColumnMappingKind`), plus
`warehouseInStock`, which the runtime code of `ColumnMappingStep.tsx` uses
as a classifier target and in the validator's warehouse-field list.
The source constructor `alias` is spelled `aliasKind` because `alias` is a
reserved word in Lean. -/
inductive ColumnMappingKind
  | catalogNumber | cas | inchiKey | productName | mdlNumber | compoundId
  | smiles | mdl | molfile
  | molFormula | molWeight | saltData | purity | chiralPurity
  | packageSize | unitPrice | inventoryAvailable | leadTime | moq
  | vendorName | countryOfOrigin | storageConditions | appearance
  | solubility | shelfLife | physicalForm | notes
  | sdsAvailable | coaAvailable | customSynthesis | retestOrExpiry
  | hsCode | hazmat
  | plateId | well | row | column
  | libraryName | libraryId | targetName | pathway | description
  | moleculeType | aliasKind | mechanismOfAction
  | concentration | volume | solvent
  | controlType | batchId
  | warehouseCode | warehouseName | warehouseCountry | warehouseCity
  | warehouseLeadTimeDays | warehouseInStock | warehouseStockQty
  | warehousePrice
  | ignore
deriving DecidableEq

instance : BEq ColumnMappingKind := ⟨fun a b => decide (a = b)⟩

/-- A single mapping entry, from `types.ts`. -/
structure ColumnMappingEntry where
  fileColumn : String
  mapTo : ColumnMappingKind
deriving DecidableEq

/-- A full column mapping, from `types.ts`. -/
structure ColumnMapping where
  mappings : List ColumnMappingEntry
deriving DecidableEq

/-- One column of the header preview, from `types.ts`. -/
structure HeaderPreviewColumn where
  fileColumn : String
  samples : List String
deriving DecidableEq

/-- Validation verdict, from `types.ts`. -/
structure ValidationResult where
  valid : Bool
  errors : List String
  warnings : List String
deriving DecidableEq

/-- Context for auto-detection, from `ColumnMappingStep.tsx`. -/
structure AutoDetectContext where
  hasWarehouseCodeColumn : Bool
deriving DecidableEq

/-- JavaScript `String.prototype.toLowerCase` restricted to ASCII. -/
def jsLower (s : String) : String := String.mk (s.toList.map Char.toLower)

/-- JavaScript `String.prototype.trim`: drop leading and trailing whitespace. -/
def jsTrim (s : String) : String :=
  String.mk (((s.toList.dropWhile Char.isWhitespace).reverse.dropWhile
    Char.isWhitespace).reverse)

/-- `columnName.toLowerCase().trim()` as used throughout the classifier. -/
def jsLowerTrim (s : String) : String := jsTrim (jsLower s)

/-- Whether `pre` is a prefix of `l`, comparing characters. -/
def listIsPrefixOf : List Char → List Char → Bool
  | [], _ => true
  | _ :: _, [] => false
  | a :: as, b :: bs => a == b && listIsPrefixOf as bs

/-- Whether `pat` occurs as a contiguous sublist of `l`. -/
def listIsInfixOf (pat : List Char) (l : List Char) : Bool :=
  match l with
  | [] => pat.isEmpty
  | _ :: tail => listIsPrefixOf pat l || listIsInfixOf pat tail

/-- JavaScript `s.includes(pat)`. -/
def jsIncludes (s pat : String) : Bool := listIsInfixOf pat.toList s.toList

/-- Warehouse-specific exact-match tier of `autoDetectMapping`
(`ColumnMappingStep.tsx`, evaluated first under `BUILDING_BLOCK`).
`none` means no rule of this tier matched. -/
def warehouseDetect (lower : String) (ctx : Option AutoDetectContext) :
    Option ColumnMappingKind :=
  if lower == "warehouse_code" || lower == "warehousecode" then
    some .warehouseCode
  else if lower == "warehouse_name" || lower == "warehousename" then
    some .warehouseName
  else if lower == "warehouse_country" || lower == "warehousecountry" then
    some .warehouseCountry
  else if lower == "warehouse_city" || lower == "warehousecity" then
    some .warehouseCity
  else if lower == "warehouse_lead_time_days" ||
      lower == "warehouseleadtimedays" || lower == "warehouse_lead_time" then
    some .warehouseLeadTimeDays
  else if lower == "warehouse_in_stock" || lower == "warehouseinstock" ||
      lower == "warehouse_instock" then
    some .warehouseInStock
  else if lower == "warehouse_stock_qty" || lower == "warehousestockqty" ||
      lower == "warehouse_qty" || lower == "warehouse_inventory" then
    some .warehouseStockQty
  else if lower == "warehouse_price" || lower == "warehouseprice" then
    some .warehousePrice
  else if lower == "inventory_available_qty" then
    some (if (match ctx with
              | some c => c.hasWarehouseCodeColumn
              | none => false) then
      ColumnMappingKind.warehouseStockQty
    else
      ColumnMappingKind.inventoryAvailable)
  else
    none

/-- Plate/screening-specific exact-match tier of `autoDetectMapping`
(`ColumnMappingStep.tsx`, evaluated first under `SCREENING_COMPOUND`). -/
def screeningDetect (lower : String) : Option ColumnMappingKind :=
  if lower == "plate" || lower == "plate_id" || lower == "plateid" ||
      lower == "rack_number" || lower == "racknumber" || lower == "rack" then
    some .plateId
  else if lower == "well" || lower == "well_position" ||
      lower == "plate_location" || lower == "platelocation" ||
      lower == "position" || lower == "well_location" then
    some .well
  else if lower == "row" || lower == "plate_row" then
    some .row
  else if lower == "column" || lower == "col" || lower == "plate_column" ||
      lower == "plate_col" then
    some .column
  else if lower == "idnumber" || lower == "id_number" ||
      lower == "compound_id" || lower == "compoundid" ||
      lower == "mcule_id" || lower == "mcule id" then
    some .compoundId
  else if lower == "library" || lower == "library_name" then
    some .libraryName
  else if lower == "target" || lower == "target_name" || lower == "e3l" ||
      lower == "biological_target" then
    some .targetName
  else if lower == "pathway" then
    some .pathway
  else if lower == "short_description" || lower == "description" then
    some .description
  else if lower == "type_of_molecule" then
    some .moleculeType
  else if lower == "alias" then
    some .aliasKind
  else if lower == "mechanism_of_action" || lower == "mechanism" then
    some .mechanismOfAction
  else if lower == "concentration" || lower == "conc" then
    some .concentration
  else if lower == "volume" || lower == "vol" then
    some .volume
  else if lower == "control" || lower == "control_type" then
    some .controlType
  else if lower == "batch" || lower == "batch_id" || lower == "lot" ||
      lower == "lot_id" then
    some .batchId
  else
    none

/-- Generic rule tier of `autoDetectMapping` (`ColumnMappingStep.tsx`),
shared by both import kinds, ending in the `ignore` default. -/
def genericDetect (lower : String) : ColumnMappingKind :=
  if lower == "cat" || jsIncludes lower "catalog" || jsIncludes lower "sku" ||
      jsIncludes lower "product_id" || jsIncludes lower "productid" ||
      jsIncludes lower "item_number" || jsIncludes lower "part_number" then
    .catalogNumber
  else if jsIncludes lower "cas" || lower == "cas_number" ||
      lower == "casnumber" then
    .cas
  else if jsIncludes lower "inchi" || jsIncludes lower "inchikey" then
    .inchiKey
  else if jsIncludes lower "name" || jsIncludes lower "description" ||
      jsIncludes lower "title" || jsIncludes lower "product" then
    .productName
  else if jsIncludes lower "package" || jsIncludes lower "size" ||
      jsIncludes lower "quantity" || jsIncludes lower "amount" ||
      jsIncludes lower "unit" then
    .packageSize
  else if jsIncludes lower "price" || jsIncludes lower "cost" ||
      jsIncludes lower "usd" then
    .unitPrice
  else if jsIncludes lower "inventory" || jsIncludes lower "stock" ||
      jsIncludes lower "available" || jsIncludes lower "qty" then
    .inventoryAvailable
  else if jsIncludes lower "lead" || jsIncludes lower "delivery" ||
      jsIncludes lower "ship" then
    .leadTime
  else if lower == "formula" || lower == "mol_formula" ||
      lower == "molformula" || lower == "molecular_formula" ||
      lower == "mf" then
    .molFormula
  else if jsIncludes lower "weight" || lower == "mw" ||
      lower == "mol_weight" || lower == "molweight" then
    .molWeight
  else if jsIncludes lower "smiles" || lower == "structure" then
    .smiles
  else if lower == "mdl_number_mdl" || lower == "mdl_number" ||
      lower == "mdlnumber" || lower == "mfcdnumber" ||
      lower == "mfcd_number" || lower == "mfcd" then
    .mdlNumber
  else if jsIncludes lower "molfile" || jsIncludes lower "mol_block" ||
      lower == "ctab" then
    .molfile
  else if lower == "mdl" && !(jsIncludes lower "number") then
    .molfile
  else if jsIncludes lower "salt" then
    .saltData
  else if jsIncludes lower "purity" || lower == "quality" ||
      lower == "assay" || lower == "hplc" || lower == "lcms" then
    .purity
  else if jsIncludes lower "hazmat" || jsIncludes lower "hazard" ||
      lower == "dangerousgoods" || lower == "dangerous_goods" ||
      lower == "dg" then
    .hazmat
  else
    .ignore

/-- `autoDetectMapping` from `ColumnMappingStep.tsx` (the column
classifier): kind-specific exact-match tiers first, then the generic
tier, defaulting to `ignore`. -/
def autoDetectMapping (columnName : String) (importKind : CatalogImportKind)
    (ctx : Option AutoDetectContext) : ColumnMappingKind :=
  let lower := jsLowerTrim columnName
  match importKind with
  | .BUILDING_BLOCK =>
    match warehouseDetect lower ctx with
    | some k => k
    | none => genericDetect lower
  | .SCREENING_COMPOUND =>
    match screeningDetect lower with
    | some k => k
    | none => genericDetect lower

/-- `initializeColumnMapping` from `ColumnMappingStep.tsx`: computes the
`hasWarehouseCodeColumn` contextual signal, then classifies every column
with that shared context. -/
def initializeColumnMapping (columns : List HeaderPreviewColumn)
    (importKind : CatalogImportKind) : ColumnMapping :=
  let hasWarehouseCodeColumn := columns.any (fun col =>
    let lower := jsLowerTrim col.fileColumn
    lower == "warehouse_code" || lower == "warehousecode")
  ⟨columns.map (fun col =>
    ⟨col.fileColumn,
     autoDetectMapping col.fileColumn importKind
       (some ⟨hasWarehouseCodeColumn⟩)⟩)⟩

/-- The mapped-field test used by `validateMapping`: whether some entry of
the mapping maps to `k` (the source's `mappedKinds` set membership). -/
def hasKind (m : ColumnMapping) (k : ColumnMappingKind) : Bool :=
  (m.mappings.map (fun e => e.mapTo)).contains k

/-- `defaultPlateId && defaultPlateId.trim() !== ""` from the PLATED_KIT
branch of `validateMapping`. -/
def hasDefaultPlate (defaultPlateId : Option String) : Bool :=
  match defaultPlateId with
  | none => false
  | some s => !(jsTrim s == "")

def errCompoundIdRequired : String :=
  "Compound ID is required: map a column to \"Compound ID\" or \"Catalog Number\""

def errStructureRequiredCL : String :=
  "Structure is required for unplated compound lists: map a column to \"Molfile (.mol)\" or \"SMILES\""

def errConflictingWell : String :=
  "Conflicting well position mappings: use either \"Well\" OR \"Row\"+\"Column\", not both"

def errPlateIdRequiredPK : String :=
  "Plate ID is required for pre-plated kits: map a column to \"Plate ID\" or provide a Default Plate ID"

def errWellRequiredPK : String :=
  "Well position is required for pre-plated kits: map a column to \"Well\" OR both \"Row\" AND \"Column\""

def errPlateIdRequiredLegacy : String :=
  "Plate ID is required: map a column to \"Plate ID\""

def errWellRequiredLegacy : String :=
  "Well position is required: map a column to \"Well\" OR both \"Row\" AND \"Column\""

def errStructureRequiredLegacy : String :=
  "Structure is required: map a column to \"Molfile (.mol)\" or \"SMILES\""

def errKeyFieldRequired : String :=
  "At least one key field is required: Catalog Number, CAS Number, InChI Key, or Product Name"

def errWarehouseCodeRequired : String :=
  "Warehouse Code is required when mapping warehouse-specific fields"

def warnLibraryName : String :=
  "Library Name is recommended for better organization of screening compounds"

def warnInchiKey : String :=
  "InChI Key is recommended for compound deduplication and search"

def warnStructurePK : String :=
  "Structure (SMILES or Molfile) is recommended but not required for pre-plated kits"

def warnInventoryBoth : String :=
  "Warehouse Stock Qty is mapped. Recommend setting global Inventory Available to Ignore to avoid confusion."

/-- The compound-id requirement shared by every SCREENING_COMPOUND branch
of `validateMapping`. -/
def screeningBaseErrors (has : ColumnMappingKind → Bool) : List String :=
  if !(has .compoundId) && !(has .catalogNumber) then
    [errCompoundIdRequired]
  else []

/-- Error list of the COMPOUND_LIST branch of `validateMapping`. -/
def compoundListErrors (has : ColumnMappingKind → Bool) : List String :=
  screeningBaseErrors has
  ++ (if !(has .mdl) && !(has .molfile) && !(has .smiles) then
        [errStructureRequiredCL]
      else [])
  ++ (if has .well && (has .row || has .column) then
        [errConflictingWell]
      else [])

/-- Warning list of the COMPOUND_LIST branch of `validateMapping`. -/
def compoundListWarnings (has : ColumnMappingKind → Bool) : List String :=
  (if !(has .libraryName) then [warnLibraryName] else [])
  ++ (if !(has .inchiKey) then [warnInchiKey] else [])

/-- Error list of the PLATED_KIT branch of `validateMapping`. -/
def platedKitErrors (has : ColumnMappingKind → Bool)
    (defaultPlateId : Option String) : List String :=
  screeningBaseErrors has
  ++ (if !(has .plateId) && !(hasDefaultPlate defaultPlateId) then
        [errPlateIdRequiredPK]
      else [])
  ++ (if !(has .well) && !(has .row && has .column) then
        [errWellRequiredPK]
      else [])
  ++ (if has .well && (has .row || has .column) then
        [errConflictingWell]
      else [])

/-- Warning list of the PLATED_KIT branch of `validateMapping`. -/
def platedKitWarnings (has : ColumnMappingKind → Bool) : List String :=
  (if !(has .mdl) && !(has .molfile) && !(has .smiles) then
     [warnStructurePK]
   else [])
  ++ (if !(has .libraryName) then [warnLibraryName] else [])

/-- Error list of the legacy SCREENING_COMPOUND branch of `validateMapping`
(no `screeningMode` supplied). -/
def legacyScreeningErrors (has : ColumnMappingKind → Bool) : List String :=
  screeningBaseErrors has
  ++ (if !(has .plateId) then [errPlateIdRequiredLegacy] else [])
  ++ (if !(has .well) && !(has .row && has .column) then
        [errWellRequiredLegacy]
      else [])
  ++ (if has .well && (has .row || has .column) then
        [errConflictingWell]
      else [])
  ++ (if !(has .mdl) && !(has .molfile) && !(has .smiles) then
        [errStructureRequiredLegacy]
      else [])

/-- Warning list of the legacy SCREENING_COMPOUND branch of
`validateMapping`. -/
def legacyScreeningWarnings (has : ColumnMappingKind → Bool) : List String :=
  (if !(has .libraryName) then [warnLibraryName] else [])
  ++ (if !(has .inchiKey) then [warnInchiKey] else [])

/-- Key identifier fields of the BUILDING_BLOCK branch of
`validateMapping`. -/
def buildingBlockKeyFields : List ColumnMappingKind :=
  [.catalogNumber, .cas, .inchiKey, .productName]

/-- Warehouse fields checked by the BUILDING_BLOCK branch of
`validateMapping` (the source's `warehouseFields` array, which includes
`warehouseInStock`). -/
def buildingBlockWarehouseFields : List ColumnMappingKind :=
  [.warehouseCode, .warehouseName, .warehouseCountry, .warehouseCity,
   .warehouseLeadTimeDays, .warehouseInStock, .warehouseStockQty,
   .warehousePrice]

/-- Error list of the BUILDING_BLOCK branch of `validateMapping`. -/
def buildingBlockErrors (has : ColumnMappingKind → Bool) : List String :=
  (if !(buildingBlockKeyFields.any has) then [errKeyFieldRequired] else [])
  ++ (if buildingBlockWarehouseFields.any has && !(has .warehouseCode) then
        [errWarehouseCodeRequired]
      else [])

/-- Warning list of the BUILDING_BLOCK branch of `validateMapping`. -/
def buildingBlockWarnings (has : ColumnMappingKind → Bool) : List String :=
  if has .inventoryAvailable && has .warehouseStockQty then
    [warnInventoryBoth]
  else []

/-- `validateMapping` from `ColumnMappingStep.tsx`: dispatches on import
kind and screening mode, collects errors and warnings, and reports
`valid` iff the error list is empty. -/
def validateMapping (mapping : ColumnMapping) (importKind : CatalogImportKind)
    (screeningMode : Option ScreeningMode) (defaultPlateId : Option String) :
    ValidationResult :=
  let has := hasKind mapping
  let ew : List String × List String :=
    match importKind, screeningMode with
    | .SCREENING_COMPOUND, some .COMPOUND_LIST =>
      (compoundListErrors has, compoundListWarnings has)
    | .SCREENING_COMPOUND, some .PLATED_KIT =>
      (platedKitErrors has defaultPlateId, platedKitWarnings has)
    | .SCREENING_COMPOUND, none =>
      (legacyScreeningErrors has, legacyScreeningWarnings has)
    | .BUILDING_BLOCK, _ =>
      (buildingBlockErrors has, buildingBlockWarnings has)
  ⟨ew.1.length == 0, ew.1, ew.2⟩

/-- Result of `analyzePrePlatedSamples`. -/
structure SampleAnalysis where
  plateIdCandidates : List String
  wellExample : Option String
deriving DecidableEq

/-- The regex `^([a-zA-Z])(\d\x7b1,2\x7d)$` of `analyzePrePlatedSamples`:
one ASCII letter followed by one or two digits, returned as the captured
letter and digit characters. -/
def wellMatchCapture (s : String) : Option (Char × List Char) :=
  match s.toList with
  | [] => none
  | c :: rest =>
    if c.isAlpha && !rest.isEmpty && rest.length ≤ 2 &&
        rest.all Char.isDigit then
      some (c, rest)
    else
      none

/-- JavaScript `digits.padStart(2, "0")` for the captured digit group. -/
def padStart2 (l : List Char) : List Char :=
  if l.length < 2 then '0' :: l else l

/-- Insertion-order deduplication, the source's
`[...new Set(xs)]` on a list of strings. -/
def jsSetDedup (l : List String) : List String :=
  l.foldl (fun acc s => if acc.contains s then acc else acc ++ [s]) []

/-- `analyzePrePlatedSamples` from `ColumnMappingStep.tsx`: well-format
preview from the first well/row-mapped column's first sample, and up to 3
unique non-empty samples of the plateId-mapped column. -/
def analyzePrePlatedSamples (columns : List HeaderPreviewColumn)
    (mapping : ColumnMapping) : SampleAnalysis :=
  let wellMapping := mapping.mappings.find? (fun m =>
    m.mapTo == ColumnMappingKind.well || m.mapTo == ColumnMappingKind.row)
  let plateMapping := mapping.mappings.find? (fun m =>
    m.mapTo == ColumnMappingKind.plateId)
  let wellExample : Option String :=
    match wellMapping with
    | none => none
    | some wm =>
      match columns.find? (fun c => c.fileColumn == wm.fileColumn) with
      | none => none
      | some wellCol =>
        match wellCol.samples.head? with
        | none => none
        | some sampleWell =>
          match wellMatchCapture sampleWell with
          | none => none
          | some (c, ds) =>
            some (sampleWell ++ " → " ++
              String.mk (c.toUpper :: padStart2 ds))
  let plateIdCandidates : List String :=
    match plateMapping with
    | none => []
    | some pm =>
      match columns.find? (fun c => c.fileColumn == pm.fileColumn) with
      | none => []
      | some plateCol =>
        (jsSetDedup (plateCol.samples.filter (fun s => !(s == "")))).take 3
  ⟨plateIdCandidates, wellExample⟩

theorem contains_singleton_ite (c : Bool) (e s : String) :
    (List.contains (if c then [e] else []) s) = (c && (s == e)) := by
  cases c
  · rfl
  · simp only [List.contains, List.elem, Bool.true_and]
    cases s == e <;> rfl

theorem contains_append_eq (l₁ l₂ : List String) (s : String) :
    (List.contains (l₁ ++ l₂) s) = (List.contains l₁ s || List.contains l₂ s) := by
  induction l₁ with
  | nil => rfl
  | cons a t ih =>
    simp only [List.cons_append, List.contains, List.elem] at ih ⊢
    cases s == a
    · exact ih
    · rfl

theorem length_beq_zero_eq_false_of_contains (l : List String) (s : String)
    (h : l.contains s = true) : (l.length == 0) = false := by
  cases l with
  | nil => exact absurd h (by simp [List.contains, List.elem])
  | cons a t => rfl

/-- Membership characterization of the PLATED_KIT error list. -/
theorem contains_platedKitErrors (has : ColumnMappingKind → Bool)
    (dpv : Option String) (s : String) :
    (platedKitErrors has dpv).contains s =
      ((!(has .compoundId) && !(has .catalogNumber)) && (s == errCompoundIdRequired)
       || (!(has .plateId) && !(hasDefaultPlate dpv)) && (s == errPlateIdRequiredPK)
       || (!(has .well) && !(has .row && has .column)) && (s == errWellRequiredPK)
       || (has .well && (has .row || has .column)) && (s == errConflictingWell)) := by
  simp only [platedKitErrors, screeningBaseErrors, contains_append_eq,
    contains_singleton_ite, Bool.or_assoc]

/-- Membership characterization of the COMPOUND_LIST error list. -/
theorem contains_compoundListErrors (has : ColumnMappingKind → Bool)
    (s : String) :
    (compoundListErrors has).contains s =
      ((!(has .compoundId) && !(has .catalogNumber)) && (s == errCompoundIdRequired)
       || (!(has .mdl) && !(has .molfile) && !(has .smiles)) && (s == errStructureRequiredCL)
       || (has .well && (has .row || has .column)) && (s == errConflictingWell)) := by
  simp only [compoundListErrors, screeningBaseErrors, contains_append_eq,
    contains_singleton_ite, Bool.or_assoc]

/-- Membership characterization of the legacy screening error list. -/
theorem contains_legacyScreeningErrors (has : ColumnMappingKind → Bool)
    (s : String) :
    (legacyScreeningErrors has).contains s =
      ((!(has .compoundId) && !(has .catalogNumber)) && (s == errCompoundIdRequired)
       || (!(has .plateId)) && (s == errPlateIdRequiredLegacy)
       || (!(has .well) && !(has .row && has .column)) && (s == errWellRequiredLegacy)
       || (has .well && (has .row || has .column)) && (s == errConflictingWell)
       || (!(has .mdl) && !(has .molfile) && !(has .smiles)) && (s == errStructureRequiredLegacy)) := by
  simp only [legacyScreeningErrors, screeningBaseErrors, contains_append_eq,
    contains_singleton_ite, Bool.or_assoc]

/-- Membership characterization of the BUILDING_BLOCK error list. -/
theorem contains_buildingBlockErrors (has : ColumnMappingKind → Bool)
    (s : String) :
    (buildingBlockErrors has).contains s =
      ((!(buildingBlockKeyFields.any has)) && (s == errKeyFieldRequired)
       || (buildingBlockWarehouseFields.any has && !(has .warehouseCode))
          && (s == errWarehouseCodeRequired)) := by
  simp only [buildingBlockErrors, contains_append_eq, contains_singleton_ite,
    Bool.or_assoc]

/-- Claim C1: under BUILDING_BLOCK the warehouse-specific exact-match tier
of the classifier runs before the generic inventory rules: every fixed
warehouse alias classifies to its warehouse field for every context (in
particular `warehouse_stock_qty` yields `warehouseStockQty`, not
`inventoryAvailable`), and `inventory_available_qty` yields
`warehouseStockQty` exactly when the context records a warehouse-code
column, else `inventoryAvailable`. -/
theorem claim_C1_warehouse_tier_precedes_generic :
    (∀ ctx : Option AutoDetectContext,
      autoDetectMapping "warehouse_code" .BUILDING_BLOCK ctx = .warehouseCode ∧
      autoDetectMapping "warehousecode" .BUILDING_BLOCK ctx = .warehouseCode ∧
      autoDetectMapping "warehouse_name" .BUILDING_BLOCK ctx = .warehouseName ∧
      autoDetectMapping "warehousename" .BUILDING_BLOCK ctx = .warehouseName ∧
      autoDetectMapping "warehouse_country" .BUILDING_BLOCK ctx = .warehouseCountry ∧
      autoDetectMapping "warehousecountry" .BUILDING_BLOCK ctx = .warehouseCountry ∧
      autoDetectMapping "warehouse_city" .BUILDING_BLOCK ctx = .warehouseCity ∧
      autoDetectMapping "warehousecity" .BUILDING_BLOCK ctx = .warehouseCity ∧
      autoDetectMapping "warehouse_lead_time_days" .BUILDING_BLOCK ctx = .warehouseLeadTimeDays ∧
      autoDetectMapping "warehouseleadtimedays" .BUILDING_BLOCK ctx = .warehouseLeadTimeDays ∧
      autoDetectMapping "warehouse_lead_time" .BUILDING_BLOCK ctx = .warehouseLeadTimeDays ∧
      autoDetectMapping "warehouse_in_stock" .BUILDING_BLOCK ctx = .warehouseInStock ∧
      autoDetectMapping "warehouseinstock" .BUILDING_BLOCK ctx = .warehouseInStock ∧
      autoDetectMapping "warehouse_instock" .BUILDING_BLOCK ctx = .warehouseInStock ∧
      autoDetectMapping "warehouse_stock_qty" .BUILDING_BLOCK ctx = .warehouseStockQty ∧
      autoDetectMapping "warehousestockqty" .BUILDING_BLOCK ctx = .warehouseStockQty ∧
      autoDetectMapping "warehouse_qty" .BUILDING_BLOCK ctx = .warehouseStockQty ∧
      autoDetectMapping "warehouse_inventory" .BUILDING_BLOCK ctx = .warehouseStockQty ∧
      autoDetectMapping "warehouse_price" .BUILDING_BLOCK ctx = .warehousePrice ∧
      autoDetectMapping "warehouseprice" .BUILDING_BLOCK ctx = .warehousePrice) ∧
    autoDetectMapping "inventory_available_qty" .BUILDING_BLOCK
      (some ⟨true⟩) = .warehouseStockQty ∧
    autoDetectMapping "inventory_available_qty" .BUILDING_BLOCK
      (some ⟨false⟩) = .inventoryAvailable ∧
    autoDetectMapping "inventory_available_qty" .BUILDING_BLOCK
      none = .inventoryAvailable := by
  refine ⟨fun ctx => ?_, by decide, by decide, by decide⟩
  rcases ctx with _ | ⟨⟨b⟩⟩
  · decide
  · cases b <;> decide

/-- Claim C9: the classifier is a total function: for every column name,
every import kind and optional context it returns some semantic field; when no
rule of the applicable tiers matches it returns `ignore`, as on
`zzz_random_123`. -/
theorem claim_C9_classifier_total :
    (∀ (name : String) (kind : CatalogImportKind)
        (ctx : Option AutoDetectContext),
      ∃ k : ColumnMappingKind, autoDetectMapping name kind ctx = k) ∧
    (∀ (name : String) (kind : CatalogImportKind)
        (ctx : Option AutoDetectContext),
      warehouseDetect (jsLowerTrim name) ctx = none →
      screeningDetect (jsLowerTrim name) = none →
      genericDetect (jsLowerTrim name) = .ignore →
      autoDetectMapping name kind ctx = .ignore) ∧
    autoDetectMapping "zzz_random_123" .BUILDING_BLOCK none = .ignore ∧
    autoDetectMapping "zzz_random_123" .SCREENING_COMPOUND none = .ignore := by
  refine ⟨fun name kind ctx => ⟨autoDetectMapping name kind ctx, rfl⟩,
    fun name kind ctx h1 h2 h3 => ?_, by decide, by decide⟩
  cases kind <;> simp [autoDetectMapping, h1, h2, h3]

/-- Claim C10: the warehouse classification tier applies only under
BUILDING_BLOCK: under SCREENING_COMPOUND, for every context,
`warehouse_stock_qty` falls through to the generic stock/qty substring
rule (`inventoryAvailable`) and `warehouse_code` matches no rule
(`ignore`). -/
theorem claim_C10_warehouse_tier_building_block_only :
    ∀ ctx : Option AutoDetectContext,
      autoDetectMapping "warehouse_stock_qty" .SCREENING_COMPOUND ctx
        = .inventoryAvailable ∧
      autoDetectMapping "warehouse_code" .SCREENING_COMPOUND ctx
        = .ignore :=
  fun _ => ⟨rfl, rfl⟩

/-- Claim C2: in the PLATED_KIT branch of `validateMapping`, the Plate-ID
error is emitted exactly when `plateId` is not mapped and the default
plate value is absent or trims to the empty string, and the well-position
error exactly when `well` is not mapped and not both `row` and `column`
are mapped. -/
theorem claim_C2_platedKit_plate_and_well_errors :
    ∀ (m : ColumnMapping) (dpv : Option String),
      ((validateMapping m .SCREENING_COMPOUND (some .PLATED_KIT) dpv).errors.contains
          errPlateIdRequiredPK
        = (!(hasKind m .plateId) && !(hasDefaultPlate dpv))) ∧
      ((validateMapping m .SCREENING_COMPOUND (some .PLATED_KIT) dpv).errors.contains
          errWellRequiredPK
        = (!(hasKind m .well) && !(hasKind m .row && hasKind m .column))) := by
  intro m dpv
  have he : (validateMapping m .SCREENING_COMPOUND (some .PLATED_KIT) dpv).errors
      = platedKitErrors (hasKind m) dpv := rfl
  refine ⟨?_, ?_⟩ <;> rw [he, contains_platedKitErrors] <;>
    simp [errCompoundIdRequired, errPlateIdRequiredPK, errWellRequiredPK,
      errConflictingWell]

/-- Claim C7: in the legacy SCREENING_COMPOUND branch of `validateMapping`
(no screening mode given), the Plate-ID error is emitted exactly when
`plateId` is unmapped, for every default plate value; absence of every
structure field (`smiles`, `mdl`, `molfile`) yields a blocking error; and
the well-position error fires under exactly the same condition as in the
PLATED_KIT branch. -/
theorem claim_C7_legacy_branch_strict :
    ∀ (m : ColumnMapping) (dpv : Option String),
      ((validateMapping m .SCREENING_COMPOUND none dpv).errors.contains
          errPlateIdRequiredLegacy = !(hasKind m .plateId)) ∧
      ((validateMapping m .SCREENING_COMPOUND none dpv).errors.contains
          errStructureRequiredLegacy
        = (!(hasKind m .mdl) && !(hasKind m .molfile) && !(hasKind m .smiles))) ∧
      ((validateMapping m .SCREENING_COMPOUND none dpv).errors.contains
          errWellRequiredLegacy
        = (!(hasKind m .well) && !(hasKind m .row && hasKind m .column))) ∧
      ((validateMapping m .SCREENING_COMPOUND none dpv).errors.contains
          errWellRequiredLegacy
        = (validateMapping m .SCREENING_COMPOUND (some .PLATED_KIT) dpv).errors.contains
            errWellRequiredPK) := by
  intro m dpv
  have he : (validateMapping m .SCREENING_COMPOUND none dpv).errors
      = legacyScreeningErrors (hasKind m) := rfl
  have hp : (validateMapping m .SCREENING_COMPOUND (some .PLATED_KIT) dpv).errors
      = platedKitErrors (hasKind m) dpv := rfl
  refine ⟨?_, ?_, ?_, ?_⟩ <;>
    rw [he] <;>
    (try rw [hp]) <;>
    rw [contains_legacyScreeningErrors] <;>
    (try rw [contains_platedKitErrors]) <;>
    simp [errCompoundIdRequired, errPlateIdRequiredPK, errWellRequiredPK,
      errConflictingWell, errPlateIdRequiredLegacy, errWellRequiredLegacy,
      errStructureRequiredLegacy]

/-- Claim C3: under SCREENING_COMPOUND — with either screening mode or
none — a mapping without `compoundId` and without `catalogNumber` is
invalid with the Compound-ID-required error. -/
theorem claim_C3_compound_id_required :
    ∀ (m : ColumnMapping) (mode : Option ScreeningMode) (dpv : Option String),
      hasKind m .compoundId = false → hasKind m .catalogNumber = false →
      (validateMapping m .SCREENING_COMPOUND mode dpv).valid = false ∧
      (validateMapping m .SCREENING_COMPOUND mode dpv).errors.contains
        errCompoundIdRequired = true := by
  intro m mode dpv h1 h2
  rcases mode with _ | mode
  · have he : (validateMapping m .SCREENING_COMPOUND none dpv).errors
        = legacyScreeningErrors (hasKind m) := rfl
    have hc : (validateMapping m .SCREENING_COMPOUND none dpv).errors.contains
        errCompoundIdRequired = true := by
      rw [he, contains_legacyScreeningErrors]
      simp [h1, h2]
    exact ⟨length_beq_zero_eq_false_of_contains _ _ hc, hc⟩
  · cases mode
    · have he : (validateMapping m .SCREENING_COMPOUND (some .COMPOUND_LIST) dpv).errors
          = compoundListErrors (hasKind m) := rfl
      have hc : (validateMapping m .SCREENING_COMPOUND (some .COMPOUND_LIST) dpv).errors.contains
          errCompoundIdRequired = true := by
        rw [he, contains_compoundListErrors]
        simp [h1, h2]
      exact ⟨length_beq_zero_eq_false_of_contains _ _ hc, hc⟩
    · have he : (validateMapping m .SCREENING_COMPOUND (some .PLATED_KIT) dpv).errors
          = platedKitErrors (hasKind m) dpv := rfl
      have hc : (validateMapping m .SCREENING_COMPOUND (some .PLATED_KIT) dpv).errors.contains
          errCompoundIdRequired = true := by
        rw [he, contains_platedKitErrors]
        simp [h1, h2]
      exact ⟨length_beq_zero_eq_false_of_contains _ _ hc, hc⟩

/-- Claim C3 witness: the columns Plate, Well, SMILES auto-initialized
under SCREENING_COMPOUND and validated in COMPOUND_LIST mode are invalid
with the Compound-ID-required error, despite structure being mapped. -/
theorem claim_C3_compound_id_required_witness :
    (validateMapping
        (initializeColumnMapping
          [⟨"Plate", []⟩, ⟨"Well", []⟩, ⟨"SMILES", []⟩] .SCREENING_COMPOUND)
        .SCREENING_COMPOUND (some .COMPOUND_LIST) none).valid = false ∧
    (validateMapping
        (initializeColumnMapping
          [⟨"Plate", []⟩, ⟨"Well", []⟩, ⟨"SMILES", []⟩] .SCREENING_COMPOUND)
        .SCREENING_COMPOUND (some .COMPOUND_LIST) none).errors.contains
      errCompoundIdRequired = true :=
  claim_C3_compound_id_required
    (initializeColumnMapping
      [⟨"Plate", []⟩, ⟨"Well", []⟩, ⟨"SMILES", []⟩] .SCREENING_COMPOUND)
    (some .COMPOUND_LIST) none (by decide) (by decide)

/-- Claim C4 counterexample: there is no mapping for which the PLATED_KIT
branch emits the well-position-required error and the conflicting-well
error together, because their guard conditions require `well` to be
respectively unmapped and mapped. -/
theorem claim_C4_counterexample_no_joint_firing :
    (∃ (m : ColumnMapping) (dpv : Option String),
      (validateMapping m .SCREENING_COMPOUND (some .PLATED_KIT) dpv).errors.contains
        errWellRequiredPK = true ∧
      (validateMapping m .SCREENING_COMPOUND (some .PLATED_KIT) dpv).errors.contains
        errConflictingWell = true) ↔ False := by
  constructor
  · rintro ⟨m, dpv, h1, h2⟩
    have he : (validateMapping m .SCREENING_COMPOUND (some .PLATED_KIT) dpv).errors
        = platedKitErrors (hasKind m) dpv := rfl
    rw [he, contains_platedKitErrors] at h1 h2
    simp [errCompoundIdRequired, errPlateIdRequiredPK, errWellRequiredPK,
      errConflictingWell] at h1 h2
    rw [h1.1] at h2
    simp at h2
  · exact False.elim

/-- Claim C4 (amended): the two PLATED_KIT well-position checks are
independent but their conditions are mutually exclusive, so the
well-position-required error and the conflicting-well error never appear
in the same error list; each of them does appear for some mapping. -/
theorem claim_C4_amended_errors_mutually_exclusive :
    (∀ (m : ColumnMapping) (dpv : Option String),
      ((validateMapping m .SCREENING_COMPOUND (some .PLATED_KIT) dpv).errors.contains
          errWellRequiredPK
        && (validateMapping m .SCREENING_COMPOUND (some .PLATED_KIT) dpv).errors.contains
          errConflictingWell) = false) ∧
    (validateMapping ⟨[⟨"id", .compoundId⟩, ⟨"p", .plateId⟩]⟩
        .SCREENING_COMPOUND (some .PLATED_KIT) none).errors.contains
      errWellRequiredPK = true ∧
    (validateMapping ⟨[⟨"id", .compoundId⟩, ⟨"p", .plateId⟩, ⟨"w", .well⟩,
        ⟨"r", .row⟩]⟩ .SCREENING_COMPOUND (some .PLATED_KIT) none).errors.contains
      errConflictingWell = true := by
  refine ⟨fun m dpv => ?_, by decide, by decide⟩
  have he : (validateMapping m .SCREENING_COMPOUND (some .PLATED_KIT) dpv).errors
      = platedKitErrors (hasKind m) dpv := rfl
  rw [he]
  simp only [contains_platedKitErrors]
  cases hw : hasKind m .well <;>
    simp [hw, errCompoundIdRequired, errPlateIdRequiredPK, errWellRequiredPK,
      errConflictingWell]

/-- Claim C5 counterexample: for the columns Cat#, CAS Number, MW, SMILES
under BUILDING_BLOCK, the initializer does not produce
`[catalogNumber, cas, molWeight, smiles]`: the name `Cat#` matches no
rule (the catalog-number rule requires the exact name `cat` or a
`catalog`/`sku`/... substring), so the first field is `ignore`. -/
theorem claim_C5_counterexample_cat_hash_ignored :
    ((initializeColumnMapping
        [⟨"Cat#", []⟩, ⟨"CAS Number", []⟩, ⟨"MW", []⟩, ⟨"SMILES", []⟩]
        .BUILDING_BLOCK).mappings.map (fun e => e.mapTo)
      = [ColumnMappingKind.catalogNumber, .cas, .molWeight, .smiles]) ↔ False := by
  decide

/-- Claim C5 (amended): for the columns Cat#, CAS Number, MW, SMILES under
BUILDING_BLOCK, the initializer produces the mapTo values
`[ignore, cas, molWeight, smiles]`, and `validateMapping` on that mapping
returns valid with an empty error list (`cas` is a key identifier). -/
theorem claim_C5_amended_scenario :
    ((initializeColumnMapping
        [⟨"Cat#", []⟩, ⟨"CAS Number", []⟩, ⟨"MW", []⟩, ⟨"SMILES", []⟩]
        .BUILDING_BLOCK).mappings.map (fun e => e.mapTo)
      = [ColumnMappingKind.ignore, .cas, .molWeight, .smiles]) ∧
    (validateMapping
        (initializeColumnMapping
          [⟨"Cat#", []⟩, ⟨"CAS Number", []⟩, ⟨"MW", []⟩, ⟨"SMILES", []⟩]
          .BUILDING_BLOCK)
        .BUILDING_BLOCK none none).valid = true ∧
    (validateMapping
        (initializeColumnMapping
          [⟨"Cat#", []⟩, ⟨"CAS Number", []⟩, ⟨"MW", []⟩, ⟨"SMILES", []⟩]
          .BUILDING_BLOCK)
        .BUILDING_BLOCK none none).errors = [] := by
  refine ⟨by decide, by decide, by decide⟩

/-- Claim C6 counterexample: a BUILDING_BLOCK mapping whose only
warehouse-related field is `warehouseInStock` (with a key identifier
mapped and `warehouseCode` unmapped) does get the Warehouse-Code-required
error — the source's warehouse-field list contains `warehouseInStock`. -/
theorem claim_C6_counterexample_in_stock_checked :
    (validateMapping ⟨[⟨"Catalog", .catalogNumber⟩, ⟨"In Stock", .warehouseInStock⟩]⟩
        .BUILDING_BLOCK none none).errors.contains
      errWarehouseCodeRequired = true := by
  decide

/-- Claim C6 (amended): the warehouse-fields list checked by the
BUILDING_BLOCK branch of `validateMapping` includes `warehouseInStock`:
whenever `warehouseInStock` is mapped and `warehouseCode` is not, the
Warehouse-Code-required error is emitted. -/
theorem claim_C6_amended_in_stock_triggers_warehouse_code :
    ∀ m : ColumnMapping,
      hasKind m .warehouseInStock = true → hasKind m .warehouseCode = false →
      (validateMapping m .BUILDING_BLOCK none none).errors.contains
        errWarehouseCodeRequired = true := by
  intro m h1 h2
  have he : (validateMapping m .BUILDING_BLOCK none none).errors
      = buildingBlockErrors (hasKind m) := rfl
  rw [he, contains_buildingBlockErrors]
  have hw : buildingBlockWarehouseFields.any (hasKind m) = true := by
    simp [buildingBlockWarehouseFields, h1]
  simp [hw, h2, errKeyFieldRequired, errWarehouseCodeRequired]

/-- Claim C6 witness: a mapping with only `warehouseInStock` mapped gets
the Warehouse-Code-required error. -/
theorem claim_C6_amended_witness :
    (validateMapping ⟨[⟨"stock_flag", .warehouseInStock⟩]⟩
        .BUILDING_BLOCK none none).errors.contains
      errWarehouseCodeRequired = true :=
  claim_C6_amended_in_stock_triggers_warehouse_code
    ⟨[⟨"stock_flag", .warehouseInStock⟩]⟩ (by decide) (by decide)

/-- Claim C8 counterexample: with a row-mapped column listed before a
well-mapped column, `analyzePrePlatedSamples` builds `wellExample` from
the row column's sample (`x9`) even though a well mapping exists whose
sample (`a1`) would give `a1 → A01`: the source takes the first entry
mapped to well or row, not the well entry preferentially. -/
theorem claim_C8_counterexample_row_before_well :
    (analyzePrePlatedSamples [⟨"RowCol", ["x9"]⟩, ⟨"WellCol", ["a1"]⟩]
        ⟨[⟨"RowCol", .row⟩, ⟨"WellCol", .well⟩]⟩).wellExample
      = some "x9 → X09" ∧
    (((analyzePrePlatedSamples [⟨"RowCol", ["x9"]⟩, ⟨"WellCol", ["a1"]⟩]
        ⟨[⟨"RowCol", .row⟩, ⟨"WellCol", .well⟩]⟩).wellExample
      = some "a1 → A01") ↔ False) := by
  refine ⟨by decide, by decide⟩

/-- Claim C8 (amended): `analyzePrePlatedSamples` derives `wellExample`
from the first mapping entry whose field is well or row in mapping order
(a row entry listed before a well entry wins), normalizing a first sample
matching one letter plus one or two digits into an uppercase letter and a
zero-padded two-digit number, and returning none on no match or missing
data; `plateIdCandidates` holds at most the first 3 unique non-empty
samples of the plateId-mapped column. -/
theorem claim_C8_amended_sample_analysis :
    ((analyzePrePlatedSamples [⟨"RowCol", ["x9"]⟩, ⟨"WellCol", ["a1"]⟩]
        ⟨[⟨"RowCol", .row⟩, ⟨"WellCol", .well⟩]⟩).wellExample
      = some "x9 → X09") ∧
    ((analyzePrePlatedSamples [⟨"W", ["a1"]⟩]
        ⟨[⟨"W", .well⟩]⟩).wellExample = some "a1 → A01") ∧
    ((analyzePrePlatedSamples [⟨"W", ["A123"]⟩]
        ⟨[⟨"W", .well⟩]⟩).wellExample = none) ∧
    ((analyzePrePlatedSamples [⟨"W", []⟩]
        ⟨[⟨"W", .well⟩]⟩).wellExample = none) ∧
    ((analyzePrePlatedSamples [⟨"W", ["a1"]⟩]
        ⟨[⟨"W", .ignore⟩]⟩).wellExample = none) ∧
    ((analyzePrePlatedSamples
        [⟨"P", ["P1", "", "P2", "P1", "P3", "P4"]⟩]
        ⟨[⟨"P", .plateId⟩]⟩).plateIdCandidates = ["P1", "P2", "P3"]) ∧
    (∀ (columns : List HeaderPreviewColumn) (mapping : ColumnMapping),
      (analyzePrePlatedSamples columns mapping).plateIdCandidates.length ≤ 3) := by
  refine ⟨by decide, by decide, by decide, by decide, by decide, by decide,
    fun columns mapping => ?_⟩
  simp only [analyzePrePlatedSamples]
  split
  · simp
  · split
    · simp
    · simp [List.length_take]
